import Mathlib

deriving instance DecidableEq for Except

set_option maxRecDepth 40000

/-!
Shallow embedding of the sandbox-runner storage-recovery saga
(`DockerClient.RecoverFromStorageLimit` and `copyContainerOverlayData` in
`pkg/docker`, plus `DockerClient.RemoveImage`).

External engine calls (inspect, stop, rename, create, remove, rsync, docker
info) are modelled by an `Env` record holding the outcome the engine would
return for each call site; the saga is a pure function of that record which
returns its Go error result together with the list of engine side effects it
performed (the trace) and the final cached sandbox state.  Go `float64`
quota arithmetic is modelled over `ℚ` (exact arithmetic; the quantities
involved are far from any float rounding boundary, as the byte-truncation
step keeps every computed expansion strictly below the decimal value it
approximates).
-/

namespace DaytonaRunner

/-- A lifecycle state of a sandbox, mirroring `enums.SandboxState`. -/
inductive SandboxState where
  | creating
  | started
  | stopped
  | error
  | destroyed
deriving DecidableEq, Repr

/-- `GraphDriver` section of a Docker container inspect response:
driver name and its string-keyed metadata (notably `UpperDir`). -/
structure GraphDriverData where
  name : String
  data : List (String × String)
deriving DecidableEq, Repr

/-- The `State` section of an inspect response (only the field the saga reads). -/
structure ContainerStateInfo where
  running : Bool
deriving DecidableEq, Repr

/-- The `HostConfig` section of an inspect response (only `StorageOpt`):
`none` models a nil Go map. -/
structure HostConfig where
  storageOpt : Option (List (String × String))
deriving DecidableEq, Repr

/-- The parts of a `ContainerInspect` response read by the saga. -/
structure ContainerInspectResponse where
  hostConfig : HostConfig
  graphDriver : GraphDriverData
  state : ContainerStateInfo
deriving DecidableEq, Repr

/-- Modelled from the spec: the engine-wide `info()` call exposes the backing
filesystem type consumed by `d.getFilesystem` (whose body is not in the
analysed sources; the spec says the saga requires "an XFS-backed overlay
layer", so the info record is modelled as carrying the filesystem name). -/
structure DockerInfo where
  filesystem : String
deriving DecidableEq, Repr

/-- Modelled from the spec: `d.getFilesystem(info)` extracts the backing
filesystem name from the engine info. -/
def getFilesystem (info : DockerInfo) : String :=
  info.filesystem

/-- First-match association lookup, mirroring a Go `map[string]string`
access (`data["UpperDir"]`). -/
def lookupStr : List (String × String) → String → Option String
  | [], _ => none
  | (a, b) :: rest, k => if a = k then some b else lookupStr rest k

/-- Decimal digits to a number, mirroring `strconv` parsing of a
non-negative integer: every character must be a digit. -/
def digitsToNat? : List Char → Nat → Option Nat
  | [], acc => some acc
  | c :: cs, acc =>
    if c.isDigit then digitsToNat? cs (acc * 10 + (c.toNat - 48)) else none

/-- `strconv`-style parse of a non-empty all-digit string. -/
def decimalToNat? (s : String) : Option Nat :=
  match s.data with
  | [] => none
  | cs => digitsToNat? cs 0

/-- Modelled from the spec: `common.ParseStorageOptSizeGB` reads the
`"size"` entry of a container's `StorageOpt` map (a byte count in decimal)
and returns it in GB (`bytes / 2^30`), erroring when the entry is missing
or not a number.  The saga itself writes this entry as
`fmt.Sprintf("%d", bytes)`. -/
def ParseStorageOptSizeGB (storageOpt : List (String × String)) : Except String ℚ :=
  match lookupStr storageOpt "size" with
  | none => .error "storage opt size not found"
  | some s =>
    match decimalToNat? s with
    | none => .error "invalid storage opt size"
    | some n => .ok ((n : ℚ) / (1024 * 1024 * 1024))

/-- Modelled from the spec: `common.GBToBytes` converts a GB quantity to a
byte count (`int64(gb * 1024 * 1024 * 1024)`, truncation of a non-negative
value being the floor). -/
def GBToBytes (gb : ℚ) : Int :=
  ⌊gb * (1024 * 1024 * 1024)⌋

/-- The engine side effects the saga can perform.  `start` is part of the
engine interface but — as the spec stresses — is never emitted by this
saga; it appears in the type so that "the saga never starts the container"
is a statement about the trace, not a vacuity of the model. -/
inductive Action where
  | stop (id : String)
  | start (id : String)
  | rename (oldN newN : String)
  | create (name : String) (sizeBytes : Int)
  | remove (name : String) (force : Bool)
  | rsyncCopy (src dst : String)
  | setState (id : String) (st : SandboxState)
deriving DecidableEq, Repr

/-- The distinct error results `RecoverFromStorageLimit` can return, each
carrying the wrapped inner error message where the Go code wraps one. -/
inductive RecoveryError where
  | inspectFailed (e : String)
  | storageParseFailed (e : String)
  | expansionExhausted
  | stopFailed (e : String)
  | infoFailed (e : String)
  | unsupportedFilesystem (fs : String)
  | renameFailed (e : String)
  | createFailed (e : String)
  | copyFailed (e : String)
deriving DecidableEq, Repr

/-- Outcomes of every external call the saga may issue, one field per call
site, plus the initial cached state for the sandbox and the value of
`time.Now().Unix()`.  `createResult i` is the outcome of the `i`-th
`ContainerCreate` attempt inside the retry loop. -/
structure Env where
  inspectOrig : Except String ContainerInspectResponse
  stopResult : Except String Unit
  infoResult : Except String DockerInfo
  renameResult : Except String Unit
  maxRetries : Nat
  createResult : Nat → Except String Unit
  inspectNew : Except String ContainerInspectResponse
  rsyncResult : Except String Unit
  removeNewResult : Except String Unit
  renameBackCreate : Except String Unit
  renameBackCopy : Except String Unit
  removeOldResult : Except String Unit
  timestamp : Int
  cacheInit : Option SandboxState

/-- Result of one saga invocation: the Go return value, the engine-effect
trace, the final cached state for this sandbox, and how many
`ContainerCreate` attempts were issued. -/
structure RunOutcome where
  result : Except RecoveryError Unit
  trace : List Action
  cache : Option SandboxState
  createAttempts : Nat
deriving DecidableEq, Repr

/-- Modelled from the spec: `utils.RetryWithExponentialBackoff` performs
bounded attempts of the wrapped call, returning the first success or, once
the attempts are exhausted, the last error; the backoff delays have no
other observable effect.  Returns the outcome and the number of attempts
performed (at least one even for `maxRetries = 0`). -/
def retryGo (f : Nat → Except String Unit) : Nat → Nat → Except String Unit × Nat
  | i, fuel =>
    match f i with
    | .ok _ => (.ok (), i + 1)
    | .error e =>
      match fuel with
      | 0 => (.error e, i + 1)
      | fuel' + 1 => retryGo f (i + 1) fuel'

/-- Modelled from the spec: entry point of the bounded retry helper. -/
def RetryWithExponentialBackoff (maxRetries : Nat) (f : Nat → Except String Unit) :
    Except String Unit × Nat :=
  retryGo f 0 (maxRetries - 1)

/-- The current configured quota in GB read off the inspected container:
0 when `StorageOpt` is a nil map, else `ParseStorageOptSizeGB` of it
(lines 27–34 of the saga). -/
def currentStorageOf (c : ContainerInspectResponse) : Except String ℚ :=
  match c.hostConfig.storageOpt with
  | none => .ok 0
  | some so => ParseStorageOptSizeGB so

/-- The old container's writable-layer path as discovered at lines 58–64:
the `UpperDir` entry when the driver is `overlay2`, the empty string
otherwise (Go's zero value for the undeclared case). -/
def overlayDiffPathOf (c : ContainerInspectResponse) : String :=
  if c.graphDriver.name = "overlay2" then
    match lookupStr c.graphDriver.data "UpperDir" with
    | some u => u
    | none => ""
  else ""

/-- The temporary alias the canonical identifier's container is renamed to:
`fmt.Sprintf("%s-recovery-%d", sandboxId, timestamp)`. -/
def oldNameOf (sandboxId : String) (timestamp : Int) : String :=
  sandboxId ++ "-recovery-" ++ toString timestamp

/-- `copyContainerOverlayData`: inspect the new container, find its
`overlay2` `UpperDir`; when it cannot be determined, warn and return
success without copying; otherwise rsync the old upper dir onto it.
Returns the Go result together with the engine effects performed. -/
def copyContainerOverlayData (env : Env) (oldContainerOverlayPath : String) :
    Except String Unit × List Action :=
  match env.inspectNew with
  | .error e => (.error ("failed to inspect new container: " ++ e), [])
  | .ok newContainer =>
    let newUpperDir := overlayDiffPathOf newContainer
    if newUpperDir = "" then (.ok (), [])
    else
      match env.rsyncResult with
      | .ok _ => (.ok (), [Action.rsyncCopy oldContainerOverlayPath newUpperDir])
      | .error e =>
        (.error ("failed to copy data: rsync failed: " ++ e),
         [Action.rsyncCopy oldContainerOverlayPath newUpperDir])

/-- Engine effects of the best-effort removal of the old renamed container
(line 158): present exactly when the engine removal succeeded. -/
def removeOldTraceOf (env : Env) (oldName : String) : List Action :=
  match env.removeOldResult with
  | .ok _ => [Action.remove oldName true]
  | .error _ => []

/-- Engine effects of the copy-failure compensation (lines 147–148):
force-remove the new container under the canonical identifier, rename the
old container back; each appears when the engine call succeeded. -/
def compCopyTraceOf (env : Env) (sandboxId oldName : String) : List Action :=
  (match env.removeNewResult with
   | .ok _ => [Action.remove sandboxId true]
   | .error _ => []) ++
  (match env.renameBackCopy with
   | .ok _ => [Action.rename oldName sandboxId]
   | .error _ => [])

/-- Lines 139–167 of the saga, entered right after the cached state is set:
the copy phase (with its force-remove / rename-back compensation on copy
failure) followed by the best-effort removal of the old renamed container.
Returns the Go result and the engine effects of this suffix. -/
def afterSetState (env : Env) (sandboxId oldName overlayDiffPath : String) :
    Except RecoveryError Unit × List Action :=
  if overlayDiffPath = "" then
    (.ok (), removeOldTraceOf env oldName)
  else
    match copyContainerOverlayData env overlayDiffPath with
    | (.ok _, t) => (.ok (), t ++ removeOldTraceOf env oldName)
    | (.error e, t) =>
      (.error (.copyFailed e), t ++ compCopyTraceOf env sandboxId oldName)

/-- Shallow embedding of `DockerClient.RecoverFromStorageLimit`, following
the Go control flow line by line; engine calls draw their outcomes from
`env`, and an action enters the trace exactly when the engine performed
it. -/
def RecoverFromStorageLimit (env : Env) (sandboxId : String)
    (originalStorageQuota : ℚ) : RunOutcome :=
  match env.inspectOrig with
  | .error e => ⟨.error (.inspectFailed e), [], env.cacheInit, 0⟩
  | .ok originalContainer =>
    match currentStorageOf originalContainer with
    | .error e => ⟨.error (.storageParseFailed e), [], env.cacheInit, 0⟩
    | .ok currentStorage =>
      let maxExpansion := originalStorageQuota * (1 / 10 : ℚ)
      let currentExpansion := currentStorage - originalStorageQuota
      let increment : ℚ := 1 / 10
      let newExpansion := currentExpansion + increment
      let newStorageQuota := originalStorageQuota + newExpansion
      if maxExpansion < newExpansion then
        ⟨.error .expansionExhausted, [], env.cacheInit, 0⟩
      else
        let overlayDiffPath := overlayDiffPathOf originalContainer
        let stopStep : Except String Unit × List Action :=
          if originalContainer.state.running then
            match env.stopResult with
            | .ok _ => (.ok (), [Action.stop sandboxId])
            | .error e => (.error e, [])
          else (.ok (), [])
        match stopStep with
        | (.error e, t) => ⟨.error (.stopFailed e), t, env.cacheInit, 0⟩
        | (.ok _, t0) =>
          match env.infoResult with
          | .error e => ⟨.error (.infoFailed e), t0, env.cacheInit, 0⟩
          | .ok info =>
            let filesystem := getFilesystem info
            if filesystem = "xfs" then
              let oldName := oldNameOf sandboxId env.timestamp
              match env.renameResult with
              | .error e => ⟨.error (.renameFailed e), t0, env.cacheInit, 0⟩
              | .ok _ =>
                let t1 := t0 ++ [Action.rename sandboxId oldName]
                let newStorageBytes := GBToBytes newStorageQuota
                match RetryWithExponentialBackoff env.maxRetries env.createResult with
                | (.error e, attempts) =>
                  let compTrace : List Action :=
                    match env.renameBackCreate with
                    | .ok _ => [Action.rename oldName sandboxId]
                    | .error _ => []
                  ⟨.error (.createFailed e), t1 ++ compTrace, env.cacheInit, attempts⟩
                | (.ok _, attempts) =>
                  let t2 := t1 ++ [Action.create sandboxId newStorageBytes,
                                   Action.setState sandboxId .stopped]
                  let tail := afterSetState env sandboxId oldName overlayDiffPath
                  ⟨tail.1, t2 ++ tail.2, some .stopped, attempts⟩
            else
              ⟨.error (.unsupportedFilesystem filesystem), t0, env.cacheInit, 0⟩

/-!
Interpretation of a trace against an engine name table, used to state what
the canonical identifier resolves to after a saga run.  A container
instance is identified by a numeric uid (assigned at creation) so that
"resolves to the original container" is about identity, not just about
some container existing under the name.
-/

/-- An engine-side container instance: its identity and whether it is
running.  Its writable-layer contents are addressed separately, by path,
through `Action.rsyncCopy` effects. -/
structure ContainerInst where
  uid : Nat
  running : Bool
deriving DecidableEq, Repr

/-- The engine's name table plus a fresh-uid counter for created
containers. -/
structure EngineState where
  names : String → Option ContainerInst
  fresh : Nat

/-- Effect of one engine action on the name table.  `rsyncCopy` and
`setState` do not touch name bindings; `rename a b` moves `a`'s binding to
`b`; `create n` binds `n` to a fresh instance. -/
def applyAction (s : EngineState) : Action → EngineState
  | .stop n =>
    { s with names := fun k =>
        if k = n then (s.names n).map (fun c => { c with running := false })
        else s.names k }
  | .start n =>
    { s with names := fun k =>
        if k = n then (s.names n).map (fun c => { c with running := true })
        else s.names k }
  | .rename a b =>
    { s with names := fun k =>
        if k = b then s.names a else if k = a then none else s.names k }
  | .create n _ =>
    { names := fun k => if k = n then some ⟨s.fresh, false⟩ else s.names k,
      fresh := s.fresh + 1 }
  | .remove n _ =>
    { s with names := fun k => if k = n then none else s.names k }
  | .rsyncCopy _ _ => s
  | .setState _ _ => s

/-- Run a trace against an engine state. -/
def applyTrace (s : EngineState) (t : List Action) : EngineState :=
  t.foldl applyAction s

/-- Whether an action writes into the directory `p` (only `rsyncCopy`
writes into a directory, namely its destination). -/
def writesInto (p : String) : Action → Bool
  | .rsyncCopy _ dst => dst = p
  | _ => false

/-!  `DockerClient.RemoveImage`.  -/

/-- The engine errors an `ImageRemove` call can produce, as distinguished
by the Go code: only `errdefs.IsNotFound` matters, every other error is a
plain error value. -/
inductive ImageEngineError where
  | notFound (msg : String)
  | other (msg : String)
deriving DecidableEq, Repr

/-- `errdefs.IsNotFound`. -/
def IsNotFound : ImageEngineError → Bool
  | .notFound _ => true
  | .other _ => false

/-- `DockerClient.RemoveImage`: issue the engine removal (whose outcome is
the argument), swallow a not-found error as success (logging it), return
any other error unchanged. -/
def RemoveImage (engineResult : Except ImageEngineError Unit) :
    Except ImageEngineError Unit :=
  match engineResult with
  | .ok _ => .ok ()
  | .error e => if IsNotFound e then .ok () else .error e

/-!  Concrete environments used to witness the theorems below.  -/

/-- An inspect response for a running container with quota `b` bytes
configured (or a nil `StorageOpt` for `none`) whose overlay2 upper dir is
exposed. -/
def inspectOf (b : Option Int) : ContainerInspectResponse :=
  { hostConfig := ⟨b.map (fun n => [("size", toString n)])⟩,
    graphDriver := ⟨"overlay2", [("UpperDir", "/var/lib/docker/overlay2/aaa/diff")]⟩,
    state := ⟨true⟩ }

/-- An environment in which every engine call succeeds: XFS filesystem,
overlay2 upper dirs available on both containers, rsync succeeds.  The
sandbox's container currently has quota `b` bytes (`none` = nil
`StorageOpt`). -/
def happyEnv (b : Option Int) : Env :=
  { inspectOrig := .ok (inspectOf b),
    stopResult := .ok (),
    infoResult := .ok ⟨"xfs"⟩,
    renameResult := .ok (),
    maxRetries := 3,
    createResult := fun _ => .ok (),
    inspectNew := .ok
      { hostConfig := ⟨none⟩,
        graphDriver := ⟨"overlay2", [("UpperDir", "/var/lib/docker/overlay2/bbb/diff")]⟩,
        state := ⟨false⟩ },
    rsyncResult := .ok (),
    removeNewResult := .ok (),
    renameBackCreate := .ok (),
    renameBackCopy := .ok (),
    removeOldResult := .ok (),
    timestamp := 1700000000,
    cacheInit := some .started }

/-- `happyEnv none` except that the engine reports an `ext4` backing
filesystem. -/
def ext4Env : Env :=
  { happyEnv none with infoResult := .ok ⟨"ext4"⟩ }

/-- `happyEnv` for a 50 GB container with no prior expansion, except that
every `ContainerCreate` attempt fails. -/
def createFailEnv : Env :=
  { happyEnv (some 53687091200) with createResult := fun _ => .error "boom" }

/-- `happyEnv` variant whose old container sits on an `aufs` graph driver,
so no writable-layer path can be discovered. -/
def noUpperEnv : Env :=
  { happyEnv (some 53687091200) with
    inspectOrig := .ok
      { hostConfig := ⟨some [("size", toString (53687091200 : Int))]⟩,
        graphDriver := ⟨"aufs", []⟩, state := ⟨true⟩ } }

/-- `happyEnv` variant whose newly created container exposes an overlay2
driver without an `UpperDir` entry. -/
def noNewUpperEnv : Env :=
  { happyEnv (some 53687091200) with
    inspectNew := .ok
      { hostConfig := ⟨none⟩, graphDriver := ⟨"overlay2", []⟩, state := ⟨false⟩ } }

/-- Actions that may legitimately appear after the cached state was set:
the copy itself, removals, and the compensation rename. -/
def isPostCopyAction : Action → Bool
  | .rsyncCopy _ _ => true
  | .remove _ _ => true
  | .rename _ _ => true
  | _ => false

/-!  Helper lemmas about the retry loop and the post-create phase.  -/

theorem retryGo_all_error (f : Nat → Except String Unit)
    (hf : ∀ j, ∃ e, f j = .error e) :
    ∀ fuel i, ∃ e, retryGo f i fuel = (.error e, i + fuel + 1) := by
  intro fuel
  induction fuel with
  | zero =>
    intro i
    obtain ⟨e, he⟩ := hf i
    exact ⟨e, by simp [retryGo, he]⟩
  | succ n ih =>
    intro i
    obtain ⟨e, he⟩ := hf i
    obtain ⟨e', he'⟩ := ih (i + 1)
    refine ⟨e', ?_⟩
    simp only [retryGo, he, he']
    exact Prod.ext rfl (by omega)

theorem removeOldTraceOf_post (env : Env) (oldName : String) :
    ∀ a ∈ removeOldTraceOf env oldName, isPostCopyAction a = true := by
  intro a ha
  unfold removeOldTraceOf at ha
  cases h : env.removeOldResult with
  | ok u => rw [h] at ha; simp only [List.mem_singleton] at ha; subst ha; rfl
  | error e => rw [h] at ha; simp at ha

theorem compCopyTraceOf_post (env : Env) (id oldName : String) :
    ∀ a ∈ compCopyTraceOf env id oldName, isPostCopyAction a = true := by
  intro a ha
  unfold compCopyTraceOf at ha
  rcases List.mem_append.1 ha with h | h
  · cases hr : env.removeNewResult with
    | ok u => rw [hr] at h; simp only [List.mem_singleton] at h; subst h; rfl
    | error e => rw [hr] at h; simp at h
  · cases hr : env.renameBackCopy with
    | ok u => rw [hr] at h; simp only [List.mem_singleton] at h; subst h; rfl
    | error e => rw [hr] at h; simp at h

theorem copy_trace_post (env : Env) (p : String) :
    ∀ a ∈ (copyContainerOverlayData env p).2, isPostCopyAction a = true := by
  intro a ha
  unfold copyContainerOverlayData at ha
  cases hin : env.inspectNew with
  | error e => rw [hin] at ha; simp at ha
  | ok nc =>
    rw [hin] at ha
    dsimp only at ha
    by_cases hu : overlayDiffPathOf nc = ""
    · rw [if_pos hu] at ha; simp at ha
    · rw [if_neg hu] at ha
      cases hr : env.rsyncResult with
      | ok u => rw [hr] at ha; simp only [List.mem_singleton] at ha; subst ha; rfl
      | error e => rw [hr] at ha; simp only [List.mem_singleton] at ha; subst ha; rfl

theorem afterSetState_post_actions (env : Env) (id old p : String) :
    ∀ a ∈ (afterSetState env id old p).2, isPostCopyAction a = true := by
  intro a ha
  unfold afterSetState at ha
  by_cases hp : p = ""
  · rw [if_pos hp] at ha
    exact removeOldTraceOf_post env old a ha
  · rw [if_neg hp] at ha
    rcases hc : copyContainerOverlayData env p with ⟨cres, ct⟩
    rw [hc] at ha
    have hct : ∀ b ∈ ct, isPostCopyAction b = true := by
      intro b hb
      have := copy_trace_post env p b
      rw [hc] at this
      exact this hb
    cases cres with
    | ok u =>
      rcases List.mem_append.1 ha with h | h
      · exact hct a h
      · exact removeOldTraceOf_post env old a h
    | error e =>
      rcases List.mem_append.1 ha with h | h
      · exact hct a h
      · exact compCopyTraceOf_post env id old a h

/-!  Theorems.  -/

/-- C7: for every image name, `RemoveImage` returns success when the engine
reports the image as not found (idempotent removal of an absent resource),
returns success when the engine removal succeeds, and returns every other
engine error to the caller unchanged. -/
theorem removeImage_notFound_is_success :
    RemoveImage (.ok ()) = .ok () ∧
    (∀ msg, RemoveImage (.error (.notFound msg)) = .ok ()) ∧
    (∀ e, IsNotFound e = false → RemoveImage (.error e) = .error e) := by
  refine ⟨rfl, fun _ => rfl, fun e he => ?_⟩
  cases e with
  | notFound msg => simp [IsNotFound] at he
  | other msg => rfl

/-- Witness for C7 at a concrete non-not-found engine error. -/
theorem removeImage_notFound_is_success_witness :
    RemoveImage (.error (.other "daemon unavailable")) =
      .error (.other "daemon unavailable") :=
  removeImage_notFound_is_success.2.2 (.other "daemon unavailable") rfl

/-- C1: whenever the computed `newExpansion` (current quota minus original
quota plus the fixed 0.1 GB increment) exceeds `maxExpansion` (10% of the
original quota), the saga returns the storage-expansion-exhausted error
having performed no engine action at all — nothing stopped, renamed,
created or removed — and the cached sandbox state is unchanged. -/
theorem recover_exhausted_no_side_effects (env : Env) (sandboxId : String)
    (oq : ℚ) (orig : ContainerInspectResponse) (cs : ℚ)
    (hins : env.inspectOrig = .ok orig)
    (hcs : currentStorageOf orig = .ok cs)
    (hex : oq * (1 / 10) < cs - oq + 1 / 10) :
    RecoverFromStorageLimit env sandboxId oq =
      ⟨.error .expansionExhausted, [], env.cacheInit, 0⟩ := by
  simp only [RecoverFromStorageLimit, hins, hcs]
  rw [if_pos hex]

unseal Rat.mul Rat.inv Rat.add Rat.sub in
/-- Witness for C1: after fifty prior expansions of a 50 GB sandbox
(59055800300 configured bytes) the next recovery is refused with no
effects. -/
theorem recover_exhausted_no_side_effects_witness :
    RecoverFromStorageLimit (happyEnv (some 59055800300)) "sbx" 50 =
      ⟨.error .expansionExhausted, [], some .started, 0⟩ :=
  recover_exhausted_no_side_effects (happyEnv (some 59055800300)) "sbx" 50
    (inspectOf (some 59055800300)) (((59055800300 : ℕ) : ℚ) / (1024 * 1024 * 1024))
    rfl rfl (by decide)

unseal Rat.mul Rat.inv Rat.add Rat.sub in
/-- Counterexample to C2 as stated: with a running container on a non-XFS
engine, the saga does return the unsupported-filesystem error, but only
after stopping the container — the claimed "the sandbox's container is not
stopped" fails. -/
theorem recover_nonXfs_stops_container :
    (RecoverFromStorageLimit ext4Env "sbx" 50).result =
      .error (.unsupportedFilesystem "ext4") ∧
    Action.stop "sbx" ∈ (RecoverFromStorageLimit ext4Env "sbx" 50).trace := by
  decide

/-- C2 (amended): when the engine's filesystem is not XFS (and the
expansion ceiling was not hit), the saga fails with the
unsupported-filesystem error; its only possible side effect is stopping
the container when it was running — no rename, create or remove is
performed, no container-create attempt is issued, and the cached state is
unchanged. -/
theorem recover_nonXfs_fails_closed (env : Env) (sandboxId : String)
    (oq : ℚ) (orig : ContainerInspectResponse) (cs : ℚ) (fs : String)
    (hins : env.inspectOrig = .ok orig)
    (hcs : currentStorageOf orig = .ok cs)
    (hnoex : ¬ oq * (1 / 10) < cs - oq + 1 / 10)
    (hstop : orig.state.running = true → env.stopResult = .ok ())
    (hinfo : env.infoResult = .ok ⟨fs⟩)
    (hfs : fs ≠ "xfs") :
    RecoverFromStorageLimit env sandboxId oq =
      ⟨.error (.unsupportedFilesystem fs),
       if orig.state.running then [Action.stop sandboxId] else [],
       env.cacheInit, 0⟩ := by
  simp only [RecoverFromStorageLimit, hins, hcs]
  rw [if_neg hnoex]
  cases hrb : orig.state.running with
  | true =>
    simp only [hrb, if_true, hstop hrb, hinfo, getFilesystem]
    rw [if_neg hfs]
  | false =>
    simp only [hrb, if_false, Bool.false_eq_true, hinfo, getFilesystem]
    rw [if_neg hfs]

unseal Rat.mul Rat.inv Rat.add Rat.sub in
/-- Witness for C2 (amended) on the concrete ext4 environment. -/
theorem recover_nonXfs_fails_closed_witness :
    RecoverFromStorageLimit ext4Env "sbx" 50 =
      ⟨.error (.unsupportedFilesystem "ext4"), [Action.stop "sbx"],
       some .started, 0⟩ :=
  recover_nonXfs_fails_closed ext4Env "sbx" 50 (inspectOf none) 0 "ext4"
    rfl rfl (by decide) (fun _ => rfl) rfl (by decide)

/-- C4: when the saga reaches the creation step and every bounded creation
attempt fails, creation is attempted exactly `maxRetries` times (bounded
retry), the saga compensates by renaming the old container back to the
canonical identifier (the rename-back appears in the trace exactly when the
engine acknowledged it), the creation error is returned, and the cached
sandbox state is not mutated — in particular no `setState` effect occurs
before creation succeeds. -/
theorem recover_create_failure_compensates (env : Env) (sandboxId : String)
    (oq : ℚ) (orig : ContainerInspectResponse) (cs : ℚ)
    (hins : env.inspectOrig = .ok orig)
    (hcs : currentStorageOf orig = .ok cs)
    (hnoex : ¬ oq * (1 / 10) < cs - oq + 1 / 10)
    (hstop : orig.state.running = true → env.stopResult = .ok ())
    (hinfo : env.infoResult = .ok ⟨"xfs"⟩)
    (hren : env.renameResult = .ok ())
    (hmr : 1 ≤ env.maxRetries)
    (hfail : ∀ j, ∃ e, env.createResult j = .error e) :
    ∃ e, RecoverFromStorageLimit env sandboxId oq =
      ⟨.error (.createFailed e),
       ((if orig.state.running then [Action.stop sandboxId] else []) ++
         [Action.rename sandboxId (oldNameOf sandboxId env.timestamp)]) ++
         (match env.renameBackCreate with
          | .ok _ => [Action.rename (oldNameOf sandboxId env.timestamp) sandboxId]
          | .error _ => []),
       env.cacheInit, env.maxRetries⟩ := by
  obtain ⟨e, he⟩ := retryGo_all_error env.createResult hfail (env.maxRetries - 1) 0
  have hretry : RetryWithExponentialBackoff env.maxRetries env.createResult =
      (.error e, env.maxRetries) := by
    rw [RetryWithExponentialBackoff, he]
    congr 1
    omega
  refine ⟨e, ?_⟩
  simp only [RecoverFromStorageLimit, hins, hcs]
  rw [if_neg hnoex]
  cases hrb : orig.state.running with
  | true =>
    simp only [hrb, if_true, hstop hrb, hinfo, getFilesystem, hren, hretry]
  | false =>
    simp only [hrb, if_false, Bool.false_eq_true, hinfo, getFilesystem, hren, hretry]
    rw [if_pos trivial]

unseal Rat.mul Rat.inv Rat.add Rat.sub in
/-- Witness for C4: a running 50 GB sandbox whose every creation attempt
fails; the saga stops, renames, retries three times, renames back and
returns the creation error with the cache untouched. -/
theorem recover_create_failure_compensates_witness :
    ∃ e, RecoverFromStorageLimit createFailEnv "sbx" 50 =
      ⟨.error (.createFailed e),
       [Action.stop "sbx", Action.rename "sbx" (oldNameOf "sbx" 1700000000),
        Action.rename (oldNameOf "sbx" 1700000000) "sbx"],
       some .started, 3⟩ :=
  recover_create_failure_compensates createFailEnv "sbx" 50
    (inspectOf (some 53687091200)) (((53687091200 : ℕ) : ℚ) / (1024 * 1024 * 1024))
    rfl rfl (by decide) (fun _ => rfl) rfl rfl (by decide)
    (fun _ => ⟨"boom", rfl⟩)

/-- Actions the saga can emit at all (everything but `start`). -/
def isSagaAction : Action → Bool
  | .start _ => false
  | _ => true

theorem post_isSaga : ∀ a, isPostCopyAction a = true → isSagaAction a = true := by
  intro a h
  cases a <;> simp [isPostCopyAction, isSagaAction] at *

theorem run_actions (env : Env) (id : String) (oq : ℚ) :
    ∀ a ∈ (RecoverFromStorageLimit env id oq).trace, isSagaAction a = true := by
  intro a ha
  unfold RecoverFromStorageLimit at ha
  cases hi : env.inspectOrig with
  | error e => rw [hi] at ha; simp at ha
  | ok orig =>
    rw [hi] at ha
    dsimp only at ha
    cases hcs : currentStorageOf orig with
    | error e => rw [hcs] at ha; simp at ha
    | ok cs =>
      rw [hcs] at ha
      dsimp only at ha
      by_cases hex : oq * (1 / 10) < cs - oq + 1 / 10
      · rw [if_pos hex] at ha; simp at ha
      · rw [if_neg hex] at ha
        have hstopTrace :
            ∀ b ∈ (if orig.state.running = true then
                match env.stopResult with
                | .ok _ => ((.ok () : Except String Unit), [Action.stop id])
                | .error e => (.error e, [])
              else (.ok (), [])).2, isSagaAction b = true := by
          intro b hb
          by_cases hrb : orig.state.running = true
          · rw [if_pos hrb] at hb
            cases hsr : env.stopResult with
            | ok u => rw [hsr] at hb; simp only [List.mem_singleton] at hb; subst hb; rfl
            | error e => rw [hsr] at hb; simp at hb
          · rw [if_neg hrb] at hb; simp at hb
        rcases hss : (if orig.state.running = true then
            match env.stopResult with
            | .ok _ => ((.ok () : Except String Unit), [Action.stop id])
            | .error e => (.error e, [])
          else (.ok (), [])) with ⟨sres, st⟩
        rw [hss] at ha hstopTrace
        cases sres with
        | error e => dsimp only at ha; exact hstopTrace a ha
        | ok u =>
          dsimp only at ha
          cases hinf : env.infoResult with
          | error e => rw [hinf] at ha; exact hstopTrace a ha
          | ok info =>
            rw [hinf] at ha
            dsimp only at ha
            by_cases hfs : getFilesystem info = "xfs"
            · rw [if_pos hfs] at ha
              cases hrn : env.renameResult with
              | error e => rw [hrn] at ha; exact hstopTrace a ha
              | ok u' =>
                rw [hrn] at ha
                dsimp only at ha
                rcases hre : RetryWithExponentialBackoff env.maxRetries env.createResult
                  with ⟨cres, attempts⟩
                rw [hre] at ha
                cases cres with
                | error e =>
                  dsimp only at ha
                  rcases List.mem_append.1 ha with h | h
                  · rcases List.mem_append.1 h with h' | h'
                    · exact hstopTrace a h'
                    · simp only [List.mem_singleton] at h'; subst h'; rfl
                  · cases hrb2 : env.renameBackCreate with
                    | ok v => rw [hrb2] at h; simp only [List.mem_singleton] at h; subst h; rfl
                    | error v => rw [hrb2] at h; simp at h
                | ok v =>
                  dsimp only at ha
                  rcases List.mem_append.1 ha with h | h
                  · rcases List.mem_append.1 h with h' | h'
                    · rcases List.mem_append.1 h' with h'' | h''
                      · exact hstopTrace a h''
                      · simp only [List.mem_singleton] at h''; subst h''; rfl
                    · simp only [List.mem_cons, List.mem_singleton, List.not_mem_nil,
                        or_false] at h'
                      rcases h' with h' | h' <;> (subst h'; rfl)
                  · exact post_isSaga a (afterSetState_post_actions env id
                      (oldNameOf id env.timestamp) (overlayDiffPathOf orig) a h)
            · rw [if_neg hfs] at ha
              exact hstopTrace a ha

/-- C5: when the saga reaches the creation step and creation succeeds, it
immediately sets the sandbox's cached state to Stopped — the `setState`
effect directly follows the successful create in the trace, before any
copy or removal — the final cached state is Stopped, and the saga never
starts any container: no `start` action occurs anywhere in its trace. -/
theorem recover_success_marks_stopped_never_starts (env : Env)
    (sandboxId : String) (oq : ℚ) (orig : ContainerInspectResponse) (cs : ℚ)
    (hins : env.inspectOrig = .ok orig)
    (hcs : currentStorageOf orig = .ok cs)
    (hnoex : ¬ oq * (1 / 10) < cs - oq + 1 / 10)
    (hstop : orig.state.running = true → env.stopResult = .ok ())
    (hinfo : env.infoResult = .ok ⟨"xfs"⟩)
    (hren : env.renameResult = .ok ())
    (hcreate : (RetryWithExponentialBackoff env.maxRetries env.createResult).1 = .ok ()) :
    ∃ post,
      (RecoverFromStorageLimit env sandboxId oq).trace =
        ((if orig.state.running then [Action.stop sandboxId] else []) ++
          [Action.rename sandboxId (oldNameOf sandboxId env.timestamp)] ++
          [Action.create sandboxId (GBToBytes (oq + (cs - oq + 1 / 10))),
           Action.setState sandboxId .stopped]) ++ post ∧
      (∀ a ∈ post, isPostCopyAction a = true) ∧
      (RecoverFromStorageLimit env sandboxId oq).cache = some .stopped ∧
      (∀ n, Action.start n ∉ (RecoverFromStorageLimit env sandboxId oq).trace) := by
  rcases hpair : RetryWithExponentialBackoff env.maxRetries env.createResult
    with ⟨cres, attempts⟩
  rw [hpair] at hcreate
  dsimp only at hcreate
  subst hcreate
  have hrun : RecoverFromStorageLimit env sandboxId oq =
      ⟨(afterSetState env sandboxId (oldNameOf sandboxId env.timestamp)
          (overlayDiffPathOf orig)).1,
       ((if orig.state.running then [Action.stop sandboxId] else []) ++
         [Action.rename sandboxId (oldNameOf sandboxId env.timestamp)] ++
         [Action.create sandboxId (GBToBytes (oq + (cs - oq + 1 / 10))),
          Action.setState sandboxId .stopped]) ++
         (afterSetState env sandboxId (oldNameOf sandboxId env.timestamp)
           (overlayDiffPathOf orig)).2,
       some .stopped, attempts⟩ := by
    simp only [RecoverFromStorageLimit, hins, hcs]
    rw [if_neg hnoex]
    cases hrb : orig.state.running with
    | true => simp only [hrb, if_true, hstop hrb, hinfo, getFilesystem, hren, hpair]
    | false =>
      simp only [hrb, if_false, Bool.false_eq_true, hinfo, getFilesystem, hren, hpair]
      try rw [if_pos trivial]
  refine ⟨(afterSetState env sandboxId (oldNameOf sandboxId env.timestamp)
      (overlayDiffPathOf orig)).2, ?_, ?_, ?_, ?_⟩
  · rw [hrun]
  · exact afterSetState_post_actions env sandboxId
      (oldNameOf sandboxId env.timestamp) (overlayDiffPathOf orig)
  · rw [hrun]
  · intro n hn
    have := run_actions env sandboxId oq (Action.start n) hn
    simp [isSagaAction] at this

unseal Rat.mul Rat.inv Rat.add Rat.sub in
/-- Witness for C5 on the all-successful environment for a 50 GB sandbox
with no prior expansion. -/
theorem recover_success_marks_stopped_never_starts_witness :
    ∃ post,
      (RecoverFromStorageLimit (happyEnv (some 53687091200)) "sbx" 50).trace =
        ([Action.stop "sbx", Action.rename "sbx" (oldNameOf "sbx" 1700000000),
          Action.create "sbx" (GBToBytes (50 + (((53687091200 : ℕ) : ℚ) /
            (1024 * 1024 * 1024) - 50 + 1 / 10))),
          Action.setState "sbx" .stopped]) ++ post ∧
      (∀ a ∈ post, isPostCopyAction a = true) ∧
      (RecoverFromStorageLimit (happyEnv (some 53687091200)) "sbx" 50).cache =
        some .stopped ∧
      (∀ n, Action.start n ∉
        (RecoverFromStorageLimit (happyEnv (some 53687091200)) "sbx" 50).trace) :=
  recover_success_marks_stopped_never_starts (happyEnv (some 53687091200)) "sbx" 50
    (inspectOf (some 53687091200)) (((53687091200 : ℕ) : ℚ) / (1024 * 1024 * 1024))
    rfl rfl (by decide) (fun _ => rfl) rfl rfl rfl

theorem removeOldTraceOf_sub (env : Env) (old : String) :
    ∀ b ∈ removeOldTraceOf env old, b = Action.remove old true := by
  intro b hb
  unfold removeOldTraceOf at hb
  cases h : env.removeOldResult with
  | ok u => rw [h] at hb; simpa using hb
  | error e => rw [h] at hb; simp at hb

theorem afterSetState_empty (env : Env) (id old : String) :
    afterSetState env id old "" = (.ok (), removeOldTraceOf env old) := by
  unfold afterSetState
  rw [if_pos rfl]

/-- The whole saga outcome when every step up to and including creation
succeeds: result and post trace are those of the post-`setState` phase. -/
theorem run_create_success (env : Env) (sandboxId : String) (oq : ℚ)
    (orig : ContainerInspectResponse) (cs : ℚ) (attempts : Nat)
    (hins : env.inspectOrig = .ok orig)
    (hcs : currentStorageOf orig = .ok cs)
    (hnoex : ¬ oq * (1 / 10) < cs - oq + 1 / 10)
    (hstop : orig.state.running = true → env.stopResult = .ok ())
    (hinfo : env.infoResult = .ok ⟨"xfs"⟩)
    (hren : env.renameResult = .ok ())
    (hpair : RetryWithExponentialBackoff env.maxRetries env.createResult =
      (.ok (), attempts)) :
    RecoverFromStorageLimit env sandboxId oq =
      ⟨(afterSetState env sandboxId (oldNameOf sandboxId env.timestamp)
          (overlayDiffPathOf orig)).1,
       ((if orig.state.running then [Action.stop sandboxId] else []) ++
         [Action.rename sandboxId (oldNameOf sandboxId env.timestamp)] ++
         [Action.create sandboxId (GBToBytes (oq + (cs - oq + 1 / 10))),
          Action.setState sandboxId .stopped]) ++
         (afterSetState env sandboxId (oldNameOf sandboxId env.timestamp)
           (overlayDiffPathOf orig)).2,
       some .stopped, attempts⟩ := by
  simp only [RecoverFromStorageLimit, hins, hcs]
  rw [if_neg hnoex]
  cases hrb : orig.state.running with
  | true => simp only [hrb, if_true, hstop hrb, hinfo, getFilesystem, hren, hpair]
  | false =>
    simp only [hrb, if_false, Bool.false_eq_true, hinfo, getFilesystem, hren, hpair]
    try rw [if_pos trivial]

/-- C6: when the old container's writable-layer path could not be
determined (driver not overlay2 or no `UpperDir` entry) and every other
step succeeds through creation, the copy step is skipped — no rsync effect
occurs — and the saga proceeds to remove the old renamed container and
returns success rather than failing. -/
theorem recover_no_overlay_path_skips_copy (env : Env) (sandboxId : String)
    (oq : ℚ) (orig : ContainerInspectResponse) (cs : ℚ) (attempts : Nat)
    (hins : env.inspectOrig = .ok orig)
    (hcs : currentStorageOf orig = .ok cs)
    (hnoex : ¬ oq * (1 / 10) < cs - oq + 1 / 10)
    (hstop : orig.state.running = true → env.stopResult = .ok ())
    (hinfo : env.infoResult = .ok ⟨"xfs"⟩)
    (hren : env.renameResult = .ok ())
    (hpair : RetryWithExponentialBackoff env.maxRetries env.createResult =
      (.ok (), attempts))
    (hover : overlayDiffPathOf orig = "") :
    (RecoverFromStorageLimit env sandboxId oq).result = .ok () ∧
    (∀ s d, Action.rsyncCopy s d ∉ (RecoverFromStorageLimit env sandboxId oq).trace) ∧
    (env.removeOldResult = .ok () →
      Action.remove (oldNameOf sandboxId env.timestamp) true ∈
        (RecoverFromStorageLimit env sandboxId oq).trace) := by
  have hrun := run_create_success env sandboxId oq orig cs attempts
    hins hcs hnoex hstop hinfo hren hpair
  rw [hover, afterSetState_empty] at hrun
  refine ⟨by rw [hrun], ?_, ?_⟩
  · intro s d hmem
    rw [hrun] at hmem
    dsimp only at hmem
    rcases List.mem_append.1 hmem with h | h
    · cases hrb : orig.state.running with
      | true => rw [hrb] at h; simp at h
      | false => rw [hrb] at h; simp at h
    · have := removeOldTraceOf_sub env (oldNameOf sandboxId env.timestamp) _ h
      simp at this
  · intro h
    rw [hrun]
    dsimp only
    refine List.mem_append.2 (Or.inr ?_)
    simp [removeOldTraceOf, h]

unseal Rat.mul Rat.inv Rat.add Rat.sub in
/-- Witness for C6: a running 50 GB sandbox on an `aufs` graph driver, so
no writable-layer path is exposed; the recovery succeeds without any copy
and still removes the old container. -/
theorem recover_no_overlay_path_skips_copy_witness :
    (RecoverFromStorageLimit noUpperEnv "sbx" 50).result = .ok () ∧
    (∀ s d, Action.rsyncCopy s d ∉ (RecoverFromStorageLimit noUpperEnv "sbx" 50).trace) ∧
    (noUpperEnv.removeOldResult = .ok () →
      Action.remove (oldNameOf "sbx" 1700000000) true ∈
        (RecoverFromStorageLimit noUpperEnv "sbx" 50).trace) :=
  recover_no_overlay_path_skips_copy noUpperEnv "sbx" 50
    { hostConfig := ⟨some [("size", toString (53687091200 : Int))]⟩,
      graphDriver := ⟨"aufs", []⟩, state := ⟨true⟩ }
    (((53687091200 : ℕ) : ℚ) / (1024 * 1024 * 1024)) 1
    rfl rfl (by decide) (fun _ => rfl) rfl rfl rfl rfl

/-- C10: when the old container's writable-layer path was discovered but
the new container's overlay2 `UpperDir` cannot be determined,
`copyContainerOverlayData` returns success without performing any copy,
and the saga then removes the old container and reports overall success —
by return value this run is indistinguishable from one that copied. -/
theorem copy_no_new_upper_silent_success (env : Env) (sandboxId : String)
    (oq : ℚ) (orig nc : ContainerInspectResponse) (cs : ℚ) (attempts : Nat)
    (hins : env.inspectOrig = .ok orig)
    (hcs : currentStorageOf orig = .ok cs)
    (hnoex : ¬ oq * (1 / 10) < cs - oq + 1 / 10)
    (hstop : orig.state.running = true → env.stopResult = .ok ())
    (hinfo : env.infoResult = .ok ⟨"xfs"⟩)
    (hren : env.renameResult = .ok ())
    (hpair : RetryWithExponentialBackoff env.maxRetries env.createResult =
      (.ok (), attempts))
    (hp : ¬ overlayDiffPathOf orig = "")
    (hinsNew : env.inspectNew = .ok nc)
    (hnoUp : overlayDiffPathOf nc = "") :
    copyContainerOverlayData env (overlayDiffPathOf orig) = (.ok (), []) ∧
    (RecoverFromStorageLimit env sandboxId oq).result = .ok () ∧
    (∀ s d, Action.rsyncCopy s d ∉ (RecoverFromStorageLimit env sandboxId oq).trace) ∧
    (env.removeOldResult = .ok () →
      Action.remove (oldNameOf sandboxId env.timestamp) true ∈
        (RecoverFromStorageLimit env sandboxId oq).trace) := by
  have hcopy : copyContainerOverlayData env (overlayDiffPathOf orig) = (.ok (), []) := by
    unfold copyContainerOverlayData
    rw [hinsNew]
    dsimp only
    rw [if_pos hnoUp]
  have haft : afterSetState env sandboxId (oldNameOf sandboxId env.timestamp)
      (overlayDiffPathOf orig) =
      (.ok (), removeOldTraceOf env (oldNameOf sandboxId env.timestamp)) := by
    unfold afterSetState
    rw [if_neg hp, hcopy]
    rfl
  have hrun := run_create_success env sandboxId oq orig cs attempts
    hins hcs hnoex hstop hinfo hren hpair
  rw [haft] at hrun
  refine ⟨hcopy, by rw [hrun], ?_, ?_⟩
  · intro s d hmem
    rw [hrun] at hmem
    dsimp only at hmem
    rcases List.mem_append.1 hmem with h | h
    · cases hrb : orig.state.running with
      | true => rw [hrb] at h; simp at h
      | false => rw [hrb] at h; simp at h
    · have := removeOldTraceOf_sub env (oldNameOf sandboxId env.timestamp) _ h
      simp at this
  · intro h
    rw [hrun]
    dsimp only
    refine List.mem_append.2 (Or.inr ?_)
    simp [removeOldTraceOf, h]

unseal Rat.mul Rat.inv Rat.add Rat.sub in
/-- Witness for C10: the new container's inspect response exposes an
overlay2 driver without an `UpperDir` entry; the saga returns success with
no rsync effect. -/
theorem copy_no_new_upper_silent_success_witness :
    copyContainerOverlayData noNewUpperEnv
      (overlayDiffPathOf (inspectOf (some 53687091200))) = (.ok (), []) ∧
    (RecoverFromStorageLimit noNewUpperEnv "sbx" 50).result = .ok () ∧
    (∀ s d, Action.rsyncCopy s d ∉
      (RecoverFromStorageLimit noNewUpperEnv "sbx" 50).trace) ∧
    (noNewUpperEnv.removeOldResult = .ok () →
      Action.remove (oldNameOf "sbx" 1700000000) true ∈
        (RecoverFromStorageLimit noNewUpperEnv "sbx" 50).trace) :=
  copy_no_new_upper_silent_success noNewUpperEnv "sbx" 50
    (inspectOf (some 53687091200))
    { hostConfig := ⟨none⟩, graphDriver := ⟨"overlay2", []⟩, state := ⟨false⟩ }
    (((53687091200 : ℕ) : ℚ) / (1024 * 1024 * 1024)) 1
    rfl rfl (by decide) (fun _ => rfl) rfl rfl rfl (by decide) rfl rfl

theorem afterSetState_ok (env : Env) (id old p : String)
    (h : p = "" ∨ (copyContainerOverlayData env p).1 = .ok ()) :
    (afterSetState env id old p).1 = .ok () := by
  unfold afterSetState
  by_cases hp : p = ""
  · rw [if_pos hp]
  · rw [if_neg hp]
    rcases h with h | h
    · exact absurd h hp
    · rcases hc : copyContainerOverlayData env p with ⟨cres, ct⟩
      rw [hc] at h
      dsimp only at h
      subst h
      rfl

theorem afterSetState_comp_independent (env : Env)
    (r1 r2 r3 r4 : Except String Unit) (id old p : String) :
    (afterSetState { env with
        removeOldResult := r1
        renameBackCreate := r2
        removeNewResult := r3
        renameBackCopy := r4 } id old p).1 =
    (afterSetState env id old p).1 := by
  unfold afterSetState
  by_cases hp : p = ""
  · rw [if_pos hp, if_pos hp]
  · rw [if_neg hp, if_neg hp]
    have hcc : copyContainerOverlayData { env with
        removeOldResult := r1
        renameBackCreate := r2
        removeNewResult := r3
        renameBackCopy := r4 } p =
        copyContainerOverlayData env p := rfl
    rw [hcc]
    rcases hc : copyContainerOverlayData env p with ⟨cres, ct⟩
    cases cres <;> rfl

/-- C9: the saga's returned result is entirely independent of the outcomes
of its cleanup and compensation engine calls — removal of the old renamed
container, the rename-back after a creation failure, and the force-remove
and rename-back after a copy failure — so such failures are never returned
in place of the primary error or success; and whenever the saga reaches its
final step (creation succeeded, copy succeeded or was skipped) it returns
success, regardless of the old-container removal outcome. -/
theorem recover_cleanup_failures_never_escalate (env : Env)
    (sandboxId : String) (oq : ℚ) (r1 r2 r3 r4 : Except String Unit) :
    (RecoverFromStorageLimit { env with
        removeOldResult := r1
        renameBackCreate := r2
        removeNewResult := r3
        renameBackCopy := r4 } sandboxId oq).result =
      (RecoverFromStorageLimit env sandboxId oq).result ∧
    (∀ orig cs attempts, env.inspectOrig = .ok orig →
      currentStorageOf orig = .ok cs →
      ¬ oq * (1 / 10) < cs - oq + 1 / 10 →
      (orig.state.running = true → env.stopResult = .ok ()) →
      env.infoResult = .ok ⟨"xfs"⟩ →
      env.renameResult = .ok () →
      RetryWithExponentialBackoff env.maxRetries env.createResult =
        (.ok (), attempts) →
      (overlayDiffPathOf orig = "" ∨
        (copyContainerOverlayData env (overlayDiffPathOf orig)).1 = .ok ()) →
      (RecoverFromStorageLimit env sandboxId oq).result = .ok ()) := by
  constructor
  · unfold RecoverFromStorageLimit
    dsimp only
    cases env.inspectOrig with
    | error e => rfl
    | ok orig =>
      dsimp only
      cases currentStorageOf orig with
      | error e => rfl
      | ok cs =>
        dsimp only
        by_cases hex : oq * (1 / 10) < cs - oq + 1 / 10
        · rw [if_pos hex, if_pos hex]
        · rw [if_neg hex, if_neg hex]
          rcases hss : (if orig.state.running = true then
              match env.stopResult with
              | .ok _ => ((.ok () : Except String Unit), [Action.stop sandboxId])
              | .error e => (.error e, [])
            else (.ok (), [])) with ⟨sres, st⟩
          rw [hss]
          cases sres with
          | error e => rfl
          | ok u =>
            dsimp only
            cases env.infoResult with
            | error e => rfl
            | ok info =>
              dsimp only
              by_cases hfs : getFilesystem info = "xfs"
              · rw [if_pos hfs, if_pos hfs]
                cases env.renameResult with
                | error e => rfl
                | ok u' =>
                  dsimp only
                  rcases RetryWithExponentialBackoff env.maxRetries env.createResult
                    with ⟨cres, attempts⟩
                  cases cres with
                  | error e => rfl
                  | ok v =>
                    dsimp only
                    exact afterSetState_comp_independent env r1 r2 r3 r4 sandboxId
                      (oldNameOf sandboxId env.timestamp) (overlayDiffPathOf orig)
              · rw [if_neg hfs, if_neg hfs]
  · intro orig cs attempts hins hcs hnoex hstop hinfo hren hpair hcopy
    have hrun := run_create_success env sandboxId oq orig cs attempts
      hins hcs hnoex hstop hinfo hren hpair
    rw [hrun]
    exact afterSetState_ok env sandboxId (oldNameOf sandboxId env.timestamp)
      (overlayDiffPathOf orig) hcopy

unseal Rat.mul Rat.inv Rat.add Rat.sub in
/-- Witness for C9: with every cleanup call failing, the result is the same
as with them all succeeding, and the successful run returns success. -/
theorem recover_cleanup_failures_never_escalate_witness :
    (RecoverFromStorageLimit { happyEnv (some 53687091200) with
        removeOldResult := .error "rm old failed"
        renameBackCreate := .error "rename back failed"
        removeNewResult := .error "rm new failed"
        renameBackCopy := .error "rename back failed" } "sbx" 50).result =
      (RecoverFromStorageLimit (happyEnv (some 53687091200)) "sbx" 50).result ∧
    (RecoverFromStorageLimit (happyEnv (some 53687091200)) "sbx" 50).result =
      .ok () :=
  ⟨(recover_cleanup_failures_never_escalate (happyEnv (some 53687091200)) "sbx" 50
      (.error "rm old failed") (.error "rename back failed")
      (.error "rm new failed") (.error "rename back failed")).1,
   (recover_cleanup_failures_never_escalate (happyEnv (some 53687091200)) "sbx" 50
      (.error "rm old failed") (.error "rename back failed")
      (.error "rm new failed") (.error "rename back failed")).2
     (inspectOf (some 53687091200))
     (((53687091200 : ℕ) : ℚ) / (1024 * 1024 * 1024)) 1
     rfl rfl (by decide) (fun _ => rfl) rfl rfl rfl (Or.inr rfl)⟩

theorem oldNameOf_ne (id : String) (ts : Int) : id ≠ oldNameOf id ts := by
  intro h
  have hl := congrArg String.length h
  rw [oldNameOf, String.length_append, String.length_append] at hl
  have h10 : ("-recovery-" : String).length = 10 := rfl
  omega

/-- `happyEnv` for a 50 GB sandbox except that the bulk copy (rsync)
fails. -/
def copyFailEnv : Env :=
  { happyEnv (some 53687091200) with rsyncResult := .error "io error" }

/-- C3: when the bulk copy of the old writable layer fails (and the
compensation engine calls succeed), the saga force-removes the new
container under the canonical identifier, renames the old container back,
and returns the copy error.  Interpreting the performed effects over any
engine name table binding the canonical identifier to the original
container instance: afterwards the canonical identifier resolves to that
same original instance — stopped, the only residual effect — the temporary
alias is unbound, every other name is untouched, and no effect ever wrote
into the old container's writable-layer directory. -/
theorem recover_copy_failure_rolls_back (env : Env) (sandboxId : String)
    (oq : ℚ) (orig nc : ContainerInspectResponse) (cs : ℚ) (attempts : Nat)
    (hins : env.inspectOrig = .ok orig)
    (hcs : currentStorageOf orig = .ok cs)
    (hnoex : ¬ oq * (1 / 10) < cs - oq + 1 / 10)
    (hrunning : orig.state.running = true)
    (hstop : env.stopResult = .ok ())
    (hinfo : env.infoResult = .ok ⟨"xfs"⟩)
    (hren : env.renameResult = .ok ())
    (hpair : RetryWithExponentialBackoff env.maxRetries env.createResult =
      (.ok (), attempts))
    (hp : ¬ overlayDiffPathOf orig = "")
    (hinsNew : env.inspectNew = .ok nc)
    (hup : ¬ overlayDiffPathOf nc = "")
    (e : String) (hrsync : env.rsyncResult = .error e)
    (hrmNew : env.removeNewResult = .ok ())
    (hrnBack : env.renameBackCopy = .ok ()) :
    (RecoverFromStorageLimit env sandboxId oq).result =
      .error (.copyFailed ("failed to copy data: rsync failed: " ++ e)) ∧
    (∀ s0 : EngineState, ∀ c0 : ContainerInst,
      s0.names sandboxId = some c0 →
      s0.names (oldNameOf sandboxId env.timestamp) = none →
      (applyTrace s0 (RecoverFromStorageLimit env sandboxId oq).trace).names
          sandboxId = some ⟨c0.uid, false⟩ ∧
      (applyTrace s0 (RecoverFromStorageLimit env sandboxId oq).trace).names
          (oldNameOf sandboxId env.timestamp) = none ∧
      (∀ k, k ≠ sandboxId → k ≠ oldNameOf sandboxId env.timestamp →
        (applyTrace s0 (RecoverFromStorageLimit env sandboxId oq).trace).names k =
          s0.names k)) ∧
    (overlayDiffPathOf nc ≠ overlayDiffPathOf orig →
      ∀ a ∈ (RecoverFromStorageLimit env sandboxId oq).trace,
        writesInto (overlayDiffPathOf orig) a = false) := by
  have hcopy : copyContainerOverlayData env (overlayDiffPathOf orig) =
      (.error ("failed to copy data: rsync failed: " ++ e),
       [Action.rsyncCopy (overlayDiffPathOf orig) (overlayDiffPathOf nc)]) := by
    unfold copyContainerOverlayData
    rw [hinsNew]
    dsimp only
    rw [if_neg hup, hrsync]
  have haft : afterSetState env sandboxId (oldNameOf sandboxId env.timestamp)
      (overlayDiffPathOf orig) =
      (.error (.copyFailed ("failed to copy data: rsync failed: " ++ e)),
       [Action.rsyncCopy (overlayDiffPathOf orig) (overlayDiffPathOf nc),
        Action.remove sandboxId true,
        Action.rename (oldNameOf sandboxId env.timestamp) sandboxId]) := by
    unfold afterSetState
    rw [if_neg hp, hcopy]
    dsimp only
    rw [compCopyTraceOf, hrmNew, hrnBack]
    rfl
  have hrun := run_create_success env sandboxId oq orig cs attempts
    hins hcs hnoex (fun _ => hstop) hinfo hren hpair
  rw [haft, hrunning] at hrun
  simp only [if_true] at hrun
  have hne : sandboxId ≠ oldNameOf sandboxId env.timestamp :=
    oldNameOf_ne sandboxId env.timestamp
  refine ⟨by rw [hrun], ?_, ?_⟩
  · intro s0 c0 h0 hold
    rw [hrun]
    dsimp only
    simp only [applyTrace, List.cons_append, List.nil_append, List.foldl_cons,
      List.foldl_nil]
    simp only [applyAction]
    refine ⟨?_, ?_, ?_⟩
    · simp [hne, Ne.symm hne, h0, hold]
    · simp [hne, Ne.symm hne, h0, hold]
    · intro k hk1 hk2
      simp [hk1, hk2, h0, hold]
  · intro hqp a ha
    rw [hrun] at ha
    dsimp only at ha
    simp only [List.cons_append, List.nil_append, List.mem_cons,
      List.not_mem_nil, or_false] at ha
    rcases ha with rfl | rfl | rfl | rfl | rfl | rfl | rfl <;>
      simp [writesInto, hqp]

unseal Rat.mul Rat.inv Rat.add Rat.sub in
/-- Witness for C3 on a concrete engine table: the canonical identifier is
bound to instance 7 (running); after the failed-copy saga it is bound to
instance 7 stopped, the alias is unbound, other names untouched, and
nothing wrote into the old writable layer. -/
theorem recover_copy_failure_rolls_back_witness :
    (RecoverFromStorageLimit copyFailEnv "sbx" 50).result =
      .error (.copyFailed ("failed to copy data: rsync failed: " ++ "io error")) ∧
    (∀ s0 : EngineState, ∀ c0 : ContainerInst,
      s0.names "sbx" = some c0 →
      s0.names (oldNameOf "sbx" 1700000000) = none →
      (applyTrace s0 (RecoverFromStorageLimit copyFailEnv "sbx" 50).trace).names
          "sbx" = some ⟨c0.uid, false⟩ ∧
      (applyTrace s0 (RecoverFromStorageLimit copyFailEnv "sbx" 50).trace).names
          (oldNameOf "sbx" 1700000000) = none ∧
      (∀ k, k ≠ "sbx" → k ≠ oldNameOf "sbx" 1700000000 →
        (applyTrace s0 (RecoverFromStorageLimit copyFailEnv "sbx" 50).trace).names
            k = s0.names k)) ∧
    (overlayDiffPathOf
        { hostConfig := ⟨none⟩,
          graphDriver := ⟨"overlay2", [("UpperDir", "/var/lib/docker/overlay2/bbb/diff")]⟩,
          state := ⟨false⟩ } ≠
      overlayDiffPathOf (inspectOf (some 53687091200)) →
      ∀ a ∈ (RecoverFromStorageLimit copyFailEnv "sbx" 50).trace,
        writesInto (overlayDiffPathOf (inspectOf (some 53687091200))) a = false) :=
  recover_copy_failure_rolls_back copyFailEnv "sbx" 50
    (inspectOf (some 53687091200))
    { hostConfig := ⟨none⟩,
      graphDriver := ⟨"overlay2", [("UpperDir", "/var/lib/docker/overlay2/bbb/diff")]⟩,
      state := ⟨false⟩ }
    (((53687091200 : ℕ) : ℚ) / (1024 * 1024 * 1024)) 1
    rfl rfl (by decide) rfl rfl rfl rfl rfl (by decide) rfl (by decide)
    "io error" rfl rfl rfl

/-- The byte size handed to the successful `ContainerCreate`, read off a
run's trace. -/
def createdSize (o : RunOutcome) : Option Int :=
  o.trace.findSome? fun a =>
    match a with
    | .create _ b => some b
    | _ => none

/-- Configured quota in bytes after `k` successive recoveries of the
sandbox, starting from a container configured with `b0` bytes: each step
runs the saga on the all-success environment and installs the byte size
the saga configured on the container it created. -/
def bytesAfter (b0 : Int) (oq : ℚ) : Nat → Int
  | 0 => b0
  | k + 1 =>
    match createdSize
        (RecoverFromStorageLimit (happyEnv (some (bytesAfter b0 oq k))) "sbx" oq) with
    | some b => b
    | none => bytesAfter b0 oq k

unseal Rat.mul Rat.inv Rat.add Rat.sub in
/-- C8: starting from a 50 GB sandbox with no prior expansion
(53687091200 = 50·2^30 configured bytes), the first successful recovery
configures exactly the byte encoding of 50.1 GB on the new container; each
of the first fifty recoveries succeeds and configures exactly the
previously parsed quota plus 0.1 GB; and the 51st attempt (expansion then
5.0 GB) returns the exhaustion error with no engine effect, no
container-create attempt, and the cached state unchanged. -/
theorem recover_50GB_fifty_recoveries_then_exhausted :
    bytesAfter (50 * 1073741824) 50 1 = GBToBytes (501 / 10) ∧
    (∀ k, k < 50 →
      (RecoverFromStorageLimit (happyEnv (some (bytesAfter (50 * 1073741824) 50 k)))
        "sbx" 50).result = .ok () ∧
      bytesAfter (50 * 1073741824) 50 (k + 1) =
        GBToBytes (((bytesAfter (50 * 1073741824) 50 k).toNat : ℚ) /
          (1024 * 1024 * 1024) + 1 / 10)) ∧
    RecoverFromStorageLimit (happyEnv (some (bytesAfter (50 * 1073741824) 50 50)))
      "sbx" 50 = ⟨.error .expansionExhausted, [], some .started, 0⟩ := by
  refine ⟨by decide, ?_, by decide⟩
  decide

unseal Rat.mul Rat.inv Rat.add Rat.sub in
/-- Witness for C8 at the first step: the initial recovery succeeds and
installs 53794465382 bytes, the byte encoding of 50.1 GB. -/
theorem recover_50GB_fifty_recoveries_then_exhausted_witness :
    (RecoverFromStorageLimit (happyEnv (some (bytesAfter (50 * 1073741824) 50 0)))
      "sbx" 50).result = .ok () ∧
    bytesAfter (50 * 1073741824) 50 1 =
      GBToBytes (((bytesAfter (50 * 1073741824) 50 0).toNat : ℚ) /
        (1024 * 1024 * 1024) + 1 / 10) :=
  recover_50GB_fifty_recoveries_then_exhausted.2.1 0 (by decide)

end DaytonaRunner
